import Mathlib

/-!
Verification of the adaptive rate-limited NVD fetch layer of the
killrazor/youMightWanna repository: the sliding-window request limiter,
the retrying single-CVE executor, the bulk paginator, the NVD response
classifier and the persisted throttle state machine.

Each definition is a shallow embedding of the corresponding TypeScript
function.  Time is modelled in milliseconds as natural numbers; sleeping is
modelled as advancing the clock by exactly the requested duration; the
network is modelled as an oracle mapping attempt indices to responses.
-/

/-! ## Sliding-window limiter (nvd module, `waitForRateLimit`) -/

/-- `RATE_LIMIT_WINDOW_MS = 30000` from the nvd module. -/
def RATE_LIMIT_WINDOW_MS : ℕ := 30000

/-- `RATE_LIMIT_REQUESTS = API_KEY ? 50 : 5` from the nvd module, as a
function of whether an API key is configured. -/
def RATE_LIMIT_REQUESTS (hasApiKey : Bool) : ℕ := if hasApiKey then 50 else 5

/-- The `while (requestTimestamps.length > 0 && requestTimestamps[0] < windowStart)
requestTimestamps.shift()` loop: drop leading timestamps strictly older than
`windowStart`. -/
def pruneOld (windowStart : ℕ) : List ℕ → List ℕ
  | [] => []
  | t :: ts => if t < windowStart then pruneOld windowStart ts else t :: ts

/-- `waitForRateLimit`: prune timestamps outside the window; if the limit is
reached, wait until the oldest timestamp leaves the window (plus a 100 ms
buffer) and prune again; finally record the dispatch.  Returns the updated
timestamp list together with the dispatch time.  The JS
`oldestInWindow + RATE_LIMIT_WINDOW_MS - now + 100` wait, guarded by
`waitTime > 0`, coincides with the truncated-subtraction form used here. -/
def waitForRateLimit (limit : ℕ) (l : List ℕ) (now : ℕ) : List ℕ × ℕ :=
  let l1 := pruneOld (now - RATE_LIMIT_WINDOW_MS) l
  if limit ≤ l1.length then
    match l1 with
    | [] => (l1 ++ [now], now)
    | t0 :: _ =>
      let waitTime := t0 + RATE_LIMIT_WINDOW_MS + 100 - now
      let newNow := if 0 < waitTime then now + waitTime else now
      (pruneOld (newNow - RATE_LIMIT_WINDOW_MS) l1 ++ [newNow], newNow)
  else
    (l1 ++ [now], now)

/-- State of a sequential run against the limiter: the live
`requestTimestamps` list, the full history of recorded dispatch times, and
the current clock. -/
structure LimiterRun where
  timestamps : List ℕ
  history : List ℕ
  clock : ℕ

/-- One acquire: the caller arrives `delta` ms after the previous call
returned, runs `waitForRateLimit`, and the dispatch time is appended to the
history. -/
def limiterStep (limit : ℕ) (st : LimiterRun) (delta : ℕ) : LimiterRun :=
  let now := st.clock + delta
  let r := waitForRateLimit limit st.timestamps now
  { timestamps := r.1, history := st.history ++ [r.2], clock := r.2 }

/-- A sequence of acquire operations starting from the empty timestamp
sequence at time 0, with the given inter-arrival delays. -/
def runAcquires (limit : ℕ) (deltas : List ℕ) : LimiterRun :=
  deltas.foldl (limiterStep limit) ⟨[], [], 0⟩

/-- Whether dispatch time `x` lies in the trailing window ending at `t`. -/
def inWindow (t x : ℕ) : Bool := decide (t ≤ x + RATE_LIMIT_WINDOW_MS) && decide (x ≤ t)

/-- Number of recorded dispatches inside the trailing window ending at `t`. -/
def windowCount (t : ℕ) (h : List ℕ) : ℕ := h.countP (inWindow t)

/-! ## Throttle state machine (`cache.ts`, delay-adjusting variant, and
`types.ts`) -/

/-- `ThrottleState` from `types.ts`.  Numeric fields are modelled as
integers; the ISO timestamp strings are kept abstract. -/
structure ThrottleState where
  concurrency : ℤ
  delay_ms : ℤ
  last_429_at : Option String
  last_success_at : Option String
  consecutive_successes : ℤ
  consecutive_429s : ℤ
deriving Repr, DecidableEq

/-- The bounds record shape of `THROTTLE_BOUNDS` in `types.ts`. -/
structure ThrottleBounds where
  min_concurrency : ℤ
  max_concurrency : ℤ
  min_delay_ms : ℤ
  max_delay_ms : ℤ
  speedup_threshold : ℤ
  concurrency_step : ℤ
  delay_step_ms : ℤ
deriving Repr, DecidableEq

/-- `THROTTLE_BOUNDS` from `types.ts`. -/
def THROTTLE_BOUNDS : ThrottleBounds :=
  { min_concurrency := 1
    max_concurrency := 1
    min_delay_ms := 650
    max_delay_ms := 10000
    speedup_threshold := 3
    concurrency_step := 0
    delay_step_ms := 50 }

/-- `DEFAULT_THROTTLE` from `types.ts`. -/
def DEFAULT_THROTTLE : ThrottleState :=
  { concurrency := 1
    delay_ms := 650
    last_429_at := none
    last_success_at := none
    consecutive_successes := 0
    consecutive_429s := 0 }

/-- `throttleBackoff` from `cache.ts` (the variant that also adjusts
`delay_ms`), parameterized over the bounds record and over the
`new Date().toISOString()` value. -/
def throttleBackoff (B : ThrottleBounds) (now : String) (state : ThrottleState) : ThrottleState :=
  let s1 := { state with
    last_429_at := some now
    consecutive_429s := state.consecutive_429s + 1
    consecutive_successes := 0 }
  let s2 :=
    if B.min_concurrency < s1.concurrency then
      { s1 with concurrency := max B.min_concurrency (s1.concurrency - B.concurrency_step) }
    else s1
  if s2.delay_ms < B.max_delay_ms then
    { s2 with delay_ms := min B.max_delay_ms (s2.delay_ms + B.delay_step_ms * s2.consecutive_429s) }
  else s2

/-- `throttleSpeedup` from `cache.ts` (the variant that also adjusts
`delay_ms`), parameterized over the bounds record and the timestamp. -/
def throttleSpeedup (B : ThrottleBounds) (now : String) (state : ThrottleState) : ThrottleState :=
  let s1 := { state with
    last_success_at := some now
    consecutive_successes := state.consecutive_successes + 1
    consecutive_429s := 0 }
  if s1.consecutive_successes < B.speedup_threshold then s1
  else
    let s2 := { s1 with consecutive_successes := 0 }
    let s3 :=
      if s2.concurrency < B.max_concurrency then
        { s2 with concurrency := min B.max_concurrency (s2.concurrency + B.concurrency_step) }
      else s2
    if B.min_delay_ms < s3.delay_ms then
      { s3 with delay_ms := max B.min_delay_ms (s3.delay_ms - B.delay_step_ms) }
    else s3

/-- `loadThrottleState` from `cache.ts` (the variant that resets to defaults;
the file also contains an earlier variant that clamps instead).  The S3 read
is modelled by an `Option ThrottleState` argument: `none` is the
absent-record / read-failure case. -/
def loadThrottleState (stored : Option ThrottleState) : ThrottleState :=
  match stored with
  | some state =>
    if THROTTLE_BOUNDS.max_concurrency < state.concurrency then DEFAULT_THROTTLE
    else if state.delay_ms < THROTTLE_BOUNDS.min_delay_ms then DEFAULT_THROTTLE
    else state
  | none => DEFAULT_THROTTLE

/-! ## NVD response data model and `parseNvdCveResponse` -/

/-- A reference entry of an NVD CVE record; the JS code reads
`ref.tags || []` and `ref.url || ''`, so an absent field is modelled by the
empty list / empty string. -/
structure NvdReference where
  url : String
  tags : List String
deriving Repr, DecidableEq

/-- The `cvssData` sub-object of a CVSS metric entry.  CVSS base scores are
JSON numbers on which the code performs no arithmetic; they are modelled as
rationals. -/
structure CvssData where
  baseScore : Option ℚ
  baseSeverity : Option String
deriving Repr, DecidableEq

/-- A CVSS metric entry.  For v2 metrics the severity sits at the metric
level (`baseSeverity`), for v3.x inside `cvssData`. -/
structure CvssMetric where
  cvssData : Option CvssData
  baseSeverity : Option String
deriving Repr, DecidableEq

/-- The `metrics` object of a CVE record; `metrics.cvssMetricV31 || absent`
is modelled by an empty list. -/
structure CveMetrics where
  cvssMetricV31 : List CvssMetric
  cvssMetricV30 : List CvssMetric
  cvssMetricV2 : List CvssMetric
deriving Repr, DecidableEq

/-- The `cve` object of one vulnerability entry. -/
structure CveData where
  references : List NvdReference
  published : Option String
  metrics : CveMetrics
deriving Repr, DecidableEq

/-- One entry of `vulnerabilities[]`; `vulnerabilities[0].cve || {}` is
modelled by an `Option` with an empty default. -/
structure NvdVulnerability where
  cve : Option CveData
deriving Repr, DecidableEq

/-- The parsed JSON body of a single-CVE NVD response. -/
structure NvdResponse where
  vulnerabilities : List NvdVulnerability
deriving Repr, DecidableEq

/-- The `{}` that `vulnerabilities[0].cve || {}` falls back to. -/
def emptyCveData : CveData := ⟨[], none, ⟨[], [], []⟩⟩

/-- Patch status classification values of `NvdResult.status` in `types.ts`. -/
inductive NvdStatus where
  | PATCHED
  | MITIGATION_ONLY
  | UNPATCHED
  | ERROR
deriving Repr, DecidableEq

/-- `NvdResult` from `types.ts`. -/
structure NvdResult where
  status : NvdStatus
  has_patch : Bool
  has_vendor_advisory : Bool
  has_mitigation : Bool
  patch_urls : List String
  cvss_score : Option ℚ
  cvss_severity : Option String
  nvd_published : Option String
  error : Option String
deriving Repr, DecidableEq

/-- The body of the `for (const ref of references)` loop of
`parseNvdCveResponse`, acting on the accumulated
`(hasPatch, patchUrls, hasVendorAdvisory, hasMitigation)`. -/
def scanStep (acc : Bool × List String × Bool × Bool) (r : NvdReference) :
    Bool × List String × Bool × Bool :=
  ((acc.1 || r.tags.contains "Patch"),
   (if r.tags.contains "Patch" then acc.2.1 ++ [r.url] else acc.2.1),
   (acc.2.2.1 || r.tags.contains "Vendor Advisory"),
   (acc.2.2.2 || r.tags.contains "Mitigation"))

/-- The `for (const ref of references)` loop of `parseNvdCveResponse`: a left
fold of `scanStep` in source order. -/
def scanReferences (refs : List NvdReference) : Bool × List String × Bool × Bool :=
  refs.foldl scanStep (false, [], false, false)

/-- `parseNvdCveResponse` from the nvd module: extract published date, CVSS
score/severity (preferring v3.1, then v3.0, then v2.0), scan the references
for Patch / Vendor Advisory / Mitigation tags, and classify. -/
def parseNvdCveResponse (data : NvdResponse) : NvdResult :=
  match data.vulnerabilities with
  | [] =>
    { status := .UNPATCHED, has_patch := false, has_vendor_advisory := false
      has_mitigation := false, patch_urls := [], cvss_score := none
      cvss_severity := none, nvd_published := none, error := none }
  | v :: _ =>
    let cveData := v.cve.getD emptyCveData
    let nvdPublished : Option String :=
      match cveData.published with
      | some p => if p = "" then none else some ((p.splitOn "T").headD "")
      | none => none
    let scoreSev : Option ℚ × Option String :=
      match cveData.metrics.cvssMetricV31.head? with
      | some m => (m.cvssData.bind (fun d => d.baseScore), m.cvssData.bind (fun d => d.baseSeverity))
      | none =>
        match cveData.metrics.cvssMetricV30.head? with
        | some m => (m.cvssData.bind (fun d => d.baseScore), m.cvssData.bind (fun d => d.baseSeverity))
        | none =>
          match cveData.metrics.cvssMetricV2.head? with
          | some m => (m.cvssData.bind (fun d => d.baseScore), m.baseSeverity)
          | none => (none, none)
    let scan := scanReferences cveData.references
    { status :=
        if scan.1 then .PATCHED
        else if scan.2.2.1 || scan.2.2.2 then .MITIGATION_ONLY
        else .UNPATCHED
      has_patch := scan.1
      has_vendor_advisory := scan.2.2.1
      has_mitigation := scan.2.2.2
      patch_urls := scan.2.1
      cvss_score := scoreSev.1
      cvss_severity := scoreSev.2
      nvd_published := nvdPublished
      error := none }

/-- The references the classification of a response is derived from:
those of the first vulnerability entry, or `[]` if there is none. -/
def referencesOf (data : NvdResponse) : List NvdReference :=
  match data.vulnerabilities with
  | [] => []
  | v :: _ => (v.cve.getD emptyCveData).references

/-! ## Retrying request executor (`checkNvdPatchStatus`) -/

/-- `MAX_RETRIES = 3` from the nvd module. -/
def MAX_RETRIES : ℕ := 3

/-- `RETRY_DELAY_MS = 5000` from the nvd module. -/
def RETRY_DELAY_MS : ℕ := 5000

/-- `RESULTS_PER_PAGE = 2000` from the nvd module. -/
def RESULTS_PER_PAGE : ℕ := 2000

/-- Outcome of one `fetch` attempt: an HTTP response with a status code and a
parsed body, or a thrown transport error (connection failure or the 30/60 s
`AbortSignal` timeout) carrying its message. -/
inductive FetchOutcome (β : Type) where
  | response (status : ℕ) (body : β)
  | transportError (message : String)
deriving Repr, DecidableEq

/-- `Response.ok`: status in the 2xx range. -/
def okStatus (code : ℕ) : Bool := decide (200 ≤ code) && decide (code < 300)

/-- The `ERROR` result built by the `catch` block of `checkNvdPatchStatus`. -/
def nvdErrorResult (msg : String) : NvdResult :=
  { status := .ERROR, has_patch := false, has_vendor_advisory := false
    has_mitigation := false, patch_urls := [], cvss_score := none
    cvss_severity := none, nvd_published := none, error := some msg }

/-- `checkNvdPatchStatus` from the nvd module.  The network (and the CVE id
that only feeds the request URL) is abstracted into `responses`, mapping the
retry count of an attempt to its outcome.  Alongside the `NvdResult` the
model returns the number of network calls made and the list of back-off
sleeps performed, in order, to make the scheduling observable.  A thrown
error (`HTTP 429 after 3 retries`, `HTTP <code>`, or a transport error) is
caught by the function's own `catch` and turned into an `ERROR` result, so
the function is total. -/
def checkNvdPatchStatus (responses : ℕ → FetchOutcome NvdResponse) (retryCount : ℕ) :
    NvdResult × ℕ × List ℕ :=
  match responses retryCount with
  | .transportError msg => (nvdErrorResult msg, 1, [])
  | .response code body =>
    if code = 429 then
      if h : retryCount < MAX_RETRIES then
        let r := checkNvdPatchStatus responses (retryCount + 1)
        (r.1, r.2.1 + 1, RETRY_DELAY_MS * 2 ^ retryCount :: r.2.2)
      else (nvdErrorResult ("HTTP 429 after " ++ toString MAX_RETRIES ++ " retries"), 1, [])
    else if okStatus code then (parseNvdCveResponse body, 1, [])
    else (nvdErrorResult ("HTTP " ++ toString code), 1, [])
termination_by MAX_RETRIES + 1 - retryCount
decreasing_by all_goals omega

/-! ## Bulk paginator (`fetchRecentCves`) -/

/-- The parsed JSON body of one bulk page.  Per-item parsing
(`parseRecentCve`, including the regex-driven vendor/product extraction) is
outside the paginated control flow verified here, so items are kept
abstract: the list elements stand for the already-parsed items. -/
structure BulkBody (α : Type) where
  totalResults : ℕ
  vulnerabilities : List α
deriving Repr, DecidableEq

/-- The per-page `while (retryCount <= MAX_RETRIES)` retry loop of
`fetchRecentCves`: 429 responses retry up to `MAX_RETRIES` times and set the
`had429` flag; thrown errors (non-ok statuses and transport errors) are
caught and retried as well, and rethrown once the retries are exhausted.
Returns the page outcome and whether a 429 was observed. -/
def fetchPageLoop {α : Type} (resp : ℕ → FetchOutcome (BulkBody α)) (retryCount : ℕ) :
    Except String (BulkBody α) × Bool :=
  match resp retryCount with
  | .response code body =>
    if code = 429 then
      if h : retryCount < MAX_RETRIES then
        ((fetchPageLoop resp (retryCount + 1)).1, true)
      else (.error ("HTTP 429 after " ++ toString MAX_RETRIES ++ " retries"), true)
    else if okStatus code then (.ok body, false)
    else if h : retryCount < MAX_RETRIES then fetchPageLoop resp (retryCount + 1)
    else (.error ("HTTP " ++ toString code), false)
  | .transportError msg =>
    if h : retryCount < MAX_RETRIES then fetchPageLoop resp (retryCount + 1)
    else (.error msg, false)
termination_by MAX_RETRIES + 1 - retryCount
decreasing_by all_goals omega

/-- The `do … while (startIndex < totalResults && allCves.length < maxResults)`
pagination loop of `fetchRecentCves`.  `oracle p a` is the outcome of attempt
`a` of page `p`.  A page-level error propagates as an `Except.error`,
mirroring the `throw` that aborts the whole call and discards the
accumulated items.  The source loop has no fuel; `fuel` is a modelling
device, and every claim is stated with enough of it.  Returns the collected
items, the `had429` flag and the page count. -/
def fetchRecentCvesLoop {α : Type} (oracle : ℕ → ℕ → FetchOutcome (BulkBody α))
    (maxResults : ℕ) :
    ℕ → ℕ → ℕ → List α → Bool → ℕ → Except String (List α × Bool × ℕ)
  | 0, _, _, _, _, _ => .error "model fuel exhausted"
  | fuel + 1, page, startIndex, acc, had429, pageCount =>
    match fetchPageLoop (oracle page) 0 with
    | (.error e, _) => .error e
    | (.ok body, h429) =>
      let had429' := had429 || h429
      let acc' := acc ++ body.vulnerabilities.take (maxResults - acc.length)
      let startIndex' := startIndex + RESULTS_PER_PAGE
      if startIndex' < body.totalResults ∧ acc'.length < maxResults then
        fetchRecentCvesLoop oracle maxResults fuel (page + 1) startIndex' acc' had429' (pageCount + 1)
      else .ok (acc', had429', pageCount + 1)

/-- `fetchRecentCves` from the nvd module: run the pagination loop from page
0, start offset 0, no collected items and a clear `had429` flag. -/
def fetchRecentCves {α : Type} (oracle : ℕ → ℕ → FetchOutcome (BulkBody α))
    (maxResults fuel : ℕ) : Except String (List α × Bool × ℕ) :=
  fetchRecentCvesLoop oracle maxResults fuel 0 0 [] false 0

/-! ## Auxiliary predicates used in the statements -/

/-- A `ThrottleState` whose fields satisfy the configured bounds. -/
def throttleInBounds (B : ThrottleBounds) (s : ThrottleState) : Prop :=
  B.min_concurrency ≤ s.concurrency ∧ s.concurrency ≤ B.max_concurrency ∧
  B.min_delay_ms ≤ s.delay_ms ∧ s.delay_ms ≤ B.max_delay_ms ∧
  0 ≤ s.consecutive_successes ∧ 0 ≤ s.consecutive_429s

instance (B : ThrottleBounds) (s : ThrottleState) : Decidable (throttleInBounds B s) := by
  unfold throttleInBounds; infer_instance

/-- Invariant of a sequential limiter run: the live timestamp list is a
suffix of the history whose dropped prefix is strictly outside the current
window, the history is non-decreasing, bounded by the clock, the live list
never exceeds the limit, and every trailing window holds at most `limit`
dispatches. -/
structure LimiterInv (limit : ℕ) (st : LimiterRun) : Prop where
  decomp : ∃ hp, st.history = hp ++ st.timestamps ∧
    ∀ x ∈ hp, x + RATE_LIMIT_WINDOW_MS < st.clock
  sorted : List.Pairwise (· ≤ ·) st.history
  le_clock : ∀ x ∈ st.history, x ≤ st.clock
  card : st.timestamps.length ≤ limit
  window : ∀ t, windowCount t st.history ≤ limit

/-! ## Helper lemmas -/

theorem list_any_or {α : Type} (l : List α) (f g : α → Bool) :
    l.any (fun x => f x || g x) = (l.any f || l.any g) := by
  induction l with
  | nil => rfl
  | cons a l ih =>
    simp only [List.any_cons, ih]
    cases f a <;> cases g a <;> simp

theorem scanReferences_foldl (refs : List NvdReference) (acc : Bool × List String × Bool × Bool) :
    refs.foldl scanStep acc =
      (acc.1 || refs.any (fun r => r.tags.contains "Patch"),
       acc.2.1 ++ (refs.filter (fun r => r.tags.contains "Patch")).map (fun r => r.url),
       acc.2.2.1 || refs.any (fun r => r.tags.contains "Vendor Advisory"),
       acc.2.2.2 || refs.any (fun r => r.tags.contains "Mitigation")) := by
  induction refs generalizing acc with
  | nil => simp
  | cons r rs ih =>
    simp only [List.foldl_cons, ih, scanStep, List.any_cons, List.filter_cons]
    by_cases hp : "Patch" ∈ r.tags <;>
      by_cases hva : "Vendor Advisory" ∈ r.tags <;>
        by_cases hm : "Mitigation" ∈ r.tags <;>
          simp [hp, hva, hm, Bool.or_assoc]

theorem scanReferences_eq (refs : List NvdReference) :
    scanReferences refs =
      (refs.any (fun r => r.tags.contains "Patch"),
       (refs.filter (fun r => r.tags.contains "Patch")).map (fun r => r.url),
       refs.any (fun r => r.tags.contains "Vendor Advisory"),
       refs.any (fun r => r.tags.contains "Mitigation")) := by
  simpa using scanReferences_foldl refs (false, [], false, false)

/-! ## C4: single-CVE classification -/

/-- C4: the single-CVE classification is a pure function of the parsed
response's references: `PATCHED` if any reference's tags include "Patch",
else `MITIGATION_ONLY` if any include "Vendor Advisory" or "Mitigation",
else `UNPATCHED`; and the three concrete example responses classify as
`MITIGATION_ONLY`, `PATCHED` and `UNPATCHED` respectively. -/
theorem parseNvdCveResponse_classification :
    (∀ data : NvdResponse,
      (parseNvdCveResponse data).status =
        (if (referencesOf data).any (fun r => r.tags.contains "Patch") then NvdStatus.PATCHED
         else if (referencesOf data).any (fun r =>
             r.tags.contains "Vendor Advisory" || r.tags.contains "Mitigation") then
           NvdStatus.MITIGATION_ONLY
         else NvdStatus.UNPATCHED)) ∧
    (parseNvdCveResponse
        ⟨[⟨some ⟨[⟨"", ["Vendor Advisory"]⟩], none, ⟨[], [], []⟩⟩⟩]⟩).status =
      NvdStatus.MITIGATION_ONLY ∧
    (parseNvdCveResponse ⟨[⟨some ⟨[⟨"", ["Patch"]⟩], none, ⟨[], [], []⟩⟩⟩]⟩).status =
      NvdStatus.PATCHED ∧
    (parseNvdCveResponse ⟨[⟨some ⟨[], none, ⟨[], [], []⟩⟩⟩]⟩).status = NvdStatus.UNPATCHED := by
  refine ⟨?_, by decide, by decide, by decide⟩
  intro data
  match hd : data.vulnerabilities with
  | [] => simp [parseNvdCveResponse, referencesOf, hd]
  | v :: rest =>
    simp only [parseNvdCveResponse, referencesOf, hd, scanReferences_eq, list_any_or]

/-! ## C10: empty vulnerabilities array -/

/-- C10: a response whose `vulnerabilities` array is empty parses to a
successful `UNPATCHED` result with all flags false, no patch URLs and null
CVSS/published fields, and a single-CVE lookup receiving HTTP 200 with such
a body returns that result (not an `ERROR`) after one network call. -/
theorem parseNvdCveResponse_empty_vulnerabilities :
    parseNvdCveResponse ⟨[]⟩ =
      { status := NvdStatus.UNPATCHED, has_patch := false, has_vendor_advisory := false
        has_mitigation := false, patch_urls := [], cvss_score := none
        cvss_severity := none, nvd_published := none, error := none } ∧
    checkNvdPatchStatus (fun _ => .response 200 ⟨[]⟩) 0 =
      ({ status := NvdStatus.UNPATCHED, has_patch := false, has_vendor_advisory := false
         has_mitigation := false, patch_urls := [], cvss_score := none
         cvss_severity := none, nvd_published := none, error := none }, 1, []) := by
  refine ⟨rfl, ?_⟩
  unfold checkNvdPatchStatus
  norm_num [okStatus]
  rfl

/-! ## C5: backoff transition -/

/-- C5 (counterexample): for a state whose `delay_ms` already exceeds
`max_delay_ms`, `throttleBackoff` leaves `delay_ms` unchanged instead of
producing the claimed `min max_delay_ms (delay_ms + delay_step_ms * consecutive_429s)`
value, so the claim does not hold for every `ThrottleState`. -/
theorem throttleBackoff_uncapped_delay_counterexample :
    (throttleBackoff THROTTLE_BOUNDS "2026-01-01T00:00:00.000Z"
      { concurrency := 1, delay_ms := 20000, last_429_at := none, last_success_at := none,
        consecutive_successes := 0, consecutive_429s := 0 }).delay_ms = 20000 ∧
    (20000 : ℤ) ≠
      min THROTTLE_BOUNDS.max_delay_ms (20000 + THROTTLE_BOUNDS.delay_step_ms * (0 + 1)) := by
  decide

/-- C5 (amended): for every `ThrottleState` whose `concurrency` is at least
`min_concurrency` and whose `delay_ms` is at most `max_delay_ms` (with
non-negative steps and counter), the backoff transition increments
`consecutive_429s`, resets `consecutive_successes` to 0, records
`last_429_at`, decreases `concurrency` by `concurrency_step` floored at
`min_concurrency`, and increases `delay_ms` by
`delay_step_ms * consecutive_429s` (post-increment) capped at
`max_delay_ms`. -/
theorem throttleBackoff_characterization (B : ThrottleBounds) (now : String) (s : ThrottleState)
    (hstep : 0 ≤ B.concurrency_step) (hdstep : 0 ≤ B.delay_step_ms)
    (h429 : 0 ≤ s.consecutive_429s)
    (hc : B.min_concurrency ≤ s.concurrency) (hd : s.delay_ms ≤ B.max_delay_ms) :
    throttleBackoff B now s =
      { concurrency := max B.min_concurrency (s.concurrency - B.concurrency_step)
        delay_ms := min B.max_delay_ms (s.delay_ms + B.delay_step_ms * (s.consecutive_429s + 1))
        last_429_at := some now
        last_success_at := s.last_success_at
        consecutive_successes := 0
        consecutive_429s := s.consecutive_429s + 1 } := by
  have hp : 0 ≤ B.delay_step_ms * (s.consecutive_429s + 1) :=
    mul_nonneg hdstep (by omega)
  simp only [throttleBackoff]
  split_ifs with h1 h2 h3 <;> simp_all [ThrottleState.mk.injEq] <;> omega

/-- Witness for `throttleBackoff_characterization` at the configured bounds
and the default state. -/
theorem throttleBackoff_characterization_witness :
    throttleBackoff THROTTLE_BOUNDS "2026-01-01T00:00:00.000Z" DEFAULT_THROTTLE =
      { concurrency := 1, delay_ms := 700, last_429_at := some "2026-01-01T00:00:00.000Z",
        last_success_at := none, consecutive_successes := 0, consecutive_429s := 1 } := by
  rw [throttleBackoff_characterization THROTTLE_BOUNDS "2026-01-01T00:00:00.000Z"
    DEFAULT_THROTTLE (by decide) (by decide) (by decide) (by decide) (by decide)]
  decide

/-! ## C6: speedup transition -/

/-- C6 (counterexample): for a state whose `concurrency` already exceeds
`max_concurrency` and whose counter has just reached the threshold,
`throttleSpeedup` leaves `concurrency` unchanged instead of producing the
claimed `min max_concurrency (concurrency + concurrency_step)` value, so the
claim does not hold for every `ThrottleState`. -/
theorem throttleSpeedup_uncapped_concurrency_counterexample :
    (throttleSpeedup THROTTLE_BOUNDS "2026-01-01T00:00:00.000Z"
      { concurrency := 5, delay_ms := 650, last_429_at := none, last_success_at := none,
        consecutive_successes := 2, consecutive_429s := 0 }).concurrency = 5 ∧
    (5 : ℤ) ≠ min THROTTLE_BOUNDS.max_concurrency (5 + THROTTLE_BOUNDS.concurrency_step) := by
  decide

/-- C6 (amended): for every `ThrottleState` whose `concurrency` is at most
`max_concurrency`, whose `delay_ms` is at least `min_delay_ms` and whose
pre-run `consecutive_successes` is below `speedup_threshold` (with
non-negative steps), the speedup transition increments
`consecutive_successes` by exactly 1, resets `consecutive_429s` and records
`last_success_at`; only when the incremented counter reaches
`speedup_threshold` does it reset the counter to 0, increase `concurrency`
by `concurrency_step` capped at `max_concurrency` and decrease `delay_ms`
by `delay_step_ms` floored at `min_delay_ms` — so `concurrency` can change
only when the pre-run counter was `speedup_threshold - 1`. -/
theorem throttleSpeedup_characterization (B : ThrottleBounds) (now : String) (s : ThrottleState)
    (hstep : 0 ≤ B.concurrency_step) (hdstep : 0 ≤ B.delay_step_ms)
    (hc : s.concurrency ≤ B.max_concurrency) (hd : B.min_delay_ms ≤ s.delay_ms)
    (hcnt : s.consecutive_successes + 1 ≤ B.speedup_threshold) :
    throttleSpeedup B now s =
      (if s.consecutive_successes + 1 < B.speedup_threshold then
        { s with last_success_at := some now
                 consecutive_successes := s.consecutive_successes + 1
                 consecutive_429s := 0 }
      else
        { concurrency := min B.max_concurrency (s.concurrency + B.concurrency_step)
          delay_ms := max B.min_delay_ms (s.delay_ms - B.delay_step_ms)
          last_429_at := s.last_429_at
          last_success_at := some now
          consecutive_successes := 0
          consecutive_429s := 0 }) ∧
    ((throttleSpeedup B now s).concurrency ≠ s.concurrency →
      s.consecutive_successes = B.speedup_threshold - 1) := by
  have hchar : throttleSpeedup B now s =
      (if s.consecutive_successes + 1 < B.speedup_threshold then
        { s with last_success_at := some now
                 consecutive_successes := s.consecutive_successes + 1
                 consecutive_429s := 0 }
      else
        { concurrency := min B.max_concurrency (s.concurrency + B.concurrency_step)
          delay_ms := max B.min_delay_ms (s.delay_ms - B.delay_step_ms)
          last_429_at := s.last_429_at
          last_success_at := some now
          consecutive_successes := 0
          consecutive_429s := 0 }) := by
    simp only [throttleSpeedup]
    split_ifs with h1 h2 h3 h4 <;> simp_all [ThrottleState.mk.injEq] <;> omega
  refine ⟨hchar, ?_⟩
  rw [hchar]
  split_ifs with h
  · simp
  · intro _; omega

/-- Witness for `throttleSpeedup_characterization` at the configured bounds,
from a state whose counter sits one below the threshold. -/
theorem throttleSpeedup_characterization_witness :
    throttleSpeedup THROTTLE_BOUNDS "2026-01-01T00:00:00.000Z"
      { concurrency := 1, delay_ms := 650, last_429_at := none, last_success_at := none,
        consecutive_successes := 2, consecutive_429s := 0 } =
      { concurrency := 1, delay_ms := 650, last_429_at := none,
        last_success_at := some "2026-01-01T00:00:00.000Z",
        consecutive_successes := 0, consecutive_429s := 0 } := by
  have h := throttleSpeedup_characterization THROTTLE_BOUNDS "2026-01-01T00:00:00.000Z"
    { concurrency := 1, delay_ms := 650, last_429_at := none, last_success_at := none,
      consecutive_successes := 2, consecutive_429s := 0 }
    (by decide) (by decide) (by decide) (by decide) (by decide)
  rw [h.1]
  decide

/-! ## C7: loading persisted throttle state -/

/-- C7: loading a persisted state whose `concurrency` exceeds the configured
maximum or whose `delay_ms` is below the configured minimum never fails: the
loaded state is discarded in favour of `DEFAULT_THROTTLE`, and an absent
record likewise yields the defaults. -/
theorem loadThrottleState_resets_to_defaults (s : ThrottleState)
    (h : THROTTLE_BOUNDS.max_concurrency < s.concurrency ∨
      s.delay_ms < THROTTLE_BOUNDS.min_delay_ms) :
    loadThrottleState (some s) = DEFAULT_THROTTLE ∧
    loadThrottleState none = DEFAULT_THROTTLE := by
  refine ⟨?_, rfl⟩
  dsimp only [loadThrottleState]
  split_ifs with h1 h2
  · rfl
  · rfl
  · rcases h with h | h
    · exact absurd h h1
    · exact absurd h h2

/-- Witness for `loadThrottleState_resets_to_defaults` at a state whose
persisted `concurrency` exceeds the configured maximum. -/
theorem loadThrottleState_resets_to_defaults_witness :
    loadThrottleState
        (some
          { concurrency := 2
            delay_ms := 650
            last_429_at := none
            last_success_at := none
            consecutive_successes := 0
            consecutive_429s := 0 }) =
      DEFAULT_THROTTLE ∧
    loadThrottleState none = DEFAULT_THROTTLE :=
  loadThrottleState_resets_to_defaults _ (Or.inl (by decide))

/-! ## C9: transitions preserve the configured bounds -/

theorem throttleBackoff_mem_bounds (B : ThrottleBounds) (now : String) (s : ThrottleState)
    (hb1 : B.min_concurrency ≤ B.max_concurrency) (hb2 : B.min_delay_ms ≤ B.max_delay_ms)
    (hs1 : 0 ≤ B.concurrency_step) (hs2 : 0 ≤ B.delay_step_ms)
    (h : throttleInBounds B s) : throttleInBounds B (throttleBackoff B now s) := by
  obtain ⟨h1, h2, h3, h4, h5, h6⟩ := h
  have hp : 0 ≤ B.delay_step_ms * (s.consecutive_429s + 1) := mul_nonneg hs2 (by omega)
  simp only [throttleBackoff, throttleInBounds]
  split_ifs <;> refine ⟨?_, ?_, ?_, ?_, ?_, ?_⟩ <;> simp_all <;> omega

theorem throttleSpeedup_mem_bounds (B : ThrottleBounds) (now : String) (s : ThrottleState)
    (hb1 : B.min_concurrency ≤ B.max_concurrency) (hb2 : B.min_delay_ms ≤ B.max_delay_ms)
    (hs1 : 0 ≤ B.concurrency_step) (hs2 : 0 ≤ B.delay_step_ms)
    (h : throttleInBounds B s) : throttleInBounds B (throttleSpeedup B now s) := by
  obtain ⟨h1, h2, h3, h4, h5, h6⟩ := h
  simp only [throttleSpeedup, throttleInBounds]
  split_ifs <;> refine ⟨?_, ?_, ?_, ?_, ?_, ?_⟩ <;> simp_all <;> omega

/-- C9: for every `ThrottleState` within the configured bounds
(`THROTTLE_BOUNDS`), both `throttleBackoff` and `throttleSpeedup` return a
state that again satisfies all of those bounds.  (The non-mutation half of
the claim is structural: both embedded functions are pure and the source
copies the state via spread before writing.) -/
theorem throttle_transitions_preserve_bounds (now : String) (s : ThrottleState)
    (h : throttleInBounds THROTTLE_BOUNDS s) :
    throttleInBounds THROTTLE_BOUNDS (throttleBackoff THROTTLE_BOUNDS now s) ∧
    throttleInBounds THROTTLE_BOUNDS (throttleSpeedup THROTTLE_BOUNDS now s) :=
  ⟨throttleBackoff_mem_bounds THROTTLE_BOUNDS now s (by decide) (by decide) (by decide)
      (by decide) h,
   throttleSpeedup_mem_bounds THROTTLE_BOUNDS now s (by decide) (by decide) (by decide)
      (by decide) h⟩

/-- Witness for `throttle_transitions_preserve_bounds` at the default
state. -/
theorem throttle_transitions_preserve_bounds_witness :
    throttleInBounds THROTTLE_BOUNDS
      (throttleBackoff THROTTLE_BOUNDS "2026-01-01T00:00:00.000Z" DEFAULT_THROTTLE) ∧
    throttleInBounds THROTTLE_BOUNDS
      (throttleSpeedup THROTTLE_BOUNDS "2026-01-01T00:00:00.000Z" DEFAULT_THROTTLE) :=
  throttle_transitions_preserve_bounds "2026-01-01T00:00:00.000Z" DEFAULT_THROTTLE (by decide)

/-! ## C2: 429 retry exhaustion on a single lookup -/

/-- C2: if every attempt of a single-CVE lookup receives HTTP 429, then
`checkNvdPatchStatus` makes exactly `MAX_RETRIES + 1 = 4` network calls,
sleeping 5000, 10000 and 20000 ms before the 2nd, 3rd and 4th calls, and
returns the terminal rate-limit `ERROR` result instead of making a 5th call
(the oracle is unconstrained beyond attempt `MAX_RETRIES`). -/
theorem checkNvdPatchStatus_all429_four_calls (responses : ℕ → FetchOutcome NvdResponse)
    (h : ∀ i, i ≤ MAX_RETRIES → ∃ body, responses i = .response 429 body) :
    checkNvdPatchStatus responses 0 =
      (nvdErrorResult "HTTP 429 after 3 retries", MAX_RETRIES + 1, [5000, 10000, 20000]) := by
  obtain ⟨b0, h0⟩ := h 0 (by decide)
  obtain ⟨b1, h1⟩ := h 1 (by decide)
  obtain ⟨b2, h2⟩ := h 2 (by decide)
  obtain ⟨b3, h3⟩ := h 3 (by decide)
  simp [checkNvdPatchStatus, h0, h1, h2, h3, MAX_RETRIES, RETRY_DELAY_MS]
  rfl

/-- Witness for `checkNvdPatchStatus_all429_four_calls` with a constant-429
oracle. -/
theorem checkNvdPatchStatus_all429_four_calls_witness :
    checkNvdPatchStatus (fun _ => .response 429 ⟨[]⟩) 0 =
      (nvdErrorResult "HTTP 429 after 3 retries", MAX_RETRIES + 1, [5000, 10000, 20000]) :=
  checkNvdPatchStatus_all429_four_calls (fun _ => .response 429 ⟨[]⟩) (fun _ _ => ⟨⟨[]⟩, rfl⟩)

/-! ## C3: failure isolation for single lookups, fatal pages for bulk -/

theorem parse_status_ne_error (data : NvdResponse) :
    (parseNvdCveResponse data).status ≠ NvdStatus.ERROR := by
  match hd : data.vulnerabilities with
  | [] => simp [parseNvdCveResponse, hd]
  | v :: rest =>
    simp only [parseNvdCveResponse, hd]
    split_ifs <;> simp

theorem parse_error_none (data : NvdResponse) :
    (parseNvdCveResponse data).error = none := by
  match hd : data.vulnerabilities with
  | [] => simp [parseNvdCveResponse, hd]
  | v :: rest => simp only [parseNvdCveResponse, hd]

/-- C3: every single-CVE lookup returns a plain `NvdResult` (the embedding
is a total function, mirroring the source's own `catch`): a failing lookup
yields status `ERROR` carrying a message and a succeeding one carries no
error.  A first-attempt transport error, a non-2xx non-429 status, and a
429 at retry exhaustion each produce the corresponding `ERROR` result.  In
the bulk paginator, by contrast, a page whose retry loop fails propagates
the error upward, discarding every previously accumulated item. -/
theorem nvd_failure_isolation_asymmetry :
    (∀ (responses : ℕ → FetchOutcome NvdResponse) (rc : ℕ),
      ((checkNvdPatchStatus responses rc).1.status = NvdStatus.ERROR ∧
        (checkNvdPatchStatus responses rc).1.error ≠ none) ∨
      ((checkNvdPatchStatus responses rc).1.status ≠ NvdStatus.ERROR ∧
        (checkNvdPatchStatus responses rc).1.error = none)) ∧
    (∀ (responses : ℕ → FetchOutcome NvdResponse) (rc : ℕ) (msg : String),
      responses rc = .transportError msg →
      (checkNvdPatchStatus responses rc).1 = nvdErrorResult msg) ∧
    (∀ (responses : ℕ → FetchOutcome NvdResponse) (rc code : ℕ) (body : NvdResponse),
      responses rc = .response code body → code ≠ 429 → okStatus code = false →
      (checkNvdPatchStatus responses rc).1 = nvdErrorResult ("HTTP " ++ toString code)) ∧
    (∀ (responses : ℕ → FetchOutcome NvdResponse) (body : NvdResponse),
      responses MAX_RETRIES = .response 429 body →
      (checkNvdPatchStatus responses MAX_RETRIES).1 =
        nvdErrorResult "HTTP 429 after 3 retries") ∧
    (∀ (α : Type) (oracle : ℕ → ℕ → FetchOutcome (BulkBody α))
      (maxResults fuel page startIndex : ℕ) (acc : List α) (had429 : Bool) (pageCount : ℕ)
      (e : String),
      (fetchPageLoop (oracle page) 0).1 = .error e →
      fetchRecentCvesLoop oracle maxResults (fuel + 1) page startIndex acc had429 pageCount =
        .error e) := by
  refine ⟨?_, ?_, ?_, ?_, ?_⟩
  · intro responses rc
    induction rc using checkNvdPatchStatus.induct responses with
    | case1 x msg h => rw [checkNvdPatchStatus]; simp [h, nvdErrorResult]
    | case2 x body hlt h ih =>
      rw [checkNvdPatchStatus]
      simpa [h, hlt] using ih
    | case3 x body hnlt h => rw [checkNvdPatchStatus]; simp [h, hnlt, nvdErrorResult]
    | case4 x code body h hne hok =>
      rw [checkNvdPatchStatus]
      simp [h, hne, hok]
      exact Or.inr ⟨parse_status_ne_error body, parse_error_none body⟩
    | case5 x code body h hne hnok =>
      rw [checkNvdPatchStatus]; simp [h, hne, hnok, nvdErrorResult]
  · intro responses rc msg h
    rw [checkNvdPatchStatus]; simp [h]
  · intro responses rc code body h hne hok
    rw [checkNvdPatchStatus]; simp [h, hne, hok]
  · intro responses body h
    rw [checkNvdPatchStatus]; simp [h]
    rfl
  · intro α oracle maxResults fuel page startIndex acc had429 pageCount e he
    rw [fetchRecentCvesLoop]
    rcases hpl : fetchPageLoop (oracle page) 0 with ⟨r1, r2⟩
    rw [hpl] at he
    simp only at he
    subst he
    rfl

/-- Witness for `nvd_failure_isolation_asymmetry`: a timed-out lookup and a
503 lookup degrade to `ERROR` results, while a 503 page aborts the bulk loop
and discards two already-collected items. -/
theorem nvd_failure_isolation_asymmetry_witness :
    (checkNvdPatchStatus (fun _ => .transportError "The operation was aborted") 0).1 =
      nvdErrorResult "The operation was aborted" ∧
    (checkNvdPatchStatus (fun _ => .response 503 ⟨[]⟩) 0).1 = nvdErrorResult "HTTP 503" ∧
    fetchRecentCvesLoop (fun _ _ => FetchOutcome.response 503 (⟨40, []⟩ : BulkBody ℕ))
        10 1 0 2000 [7, 8] false 1 = .error "HTTP 503" := by
  have hpl : (fetchPageLoop ((fun _ _ => FetchOutcome.response 503 (⟨40, []⟩ : BulkBody ℕ)) 0) 0).1 =
      .error "HTTP 503" := by
    simp [fetchPageLoop, okStatus, MAX_RETRIES]
    rfl
  refine ⟨nvd_failure_isolation_asymmetry.2.1 _ 0 _ rfl, ?_, ?_⟩
  · rw [nvd_failure_isolation_asymmetry.2.2.1 (fun _ => .response 503 ⟨[]⟩) 0 503 ⟨[]⟩ rfl
      (by decide) (by decide)]
    rfl
  · exact nvd_failure_isolation_asymmetry.2.2.2.2 ℕ
      (fun _ _ => FetchOutcome.response 503 (⟨40, []⟩ : BulkBody ℕ)) 10 0 0 2000 [7, 8] false 1
      "HTTP 503" hpl

/-! ## C8: pagination stops at maxResults / totalResults -/

theorem fetchRecentCvesLoop_length_le {α : Type} (oracle : ℕ → ℕ → FetchOutcome (BulkBody α))
    (maxResults : ℕ) :
    ∀ (fuel page startIndex : ℕ) (acc : List α) (had429 : Bool) (pageCount : ℕ)
      (items : List α) (flag : Bool) (pages : ℕ),
      acc.length ≤ maxResults →
      fetchRecentCvesLoop oracle maxResults fuel page startIndex acc had429 pageCount =
        .ok (items, flag, pages) →
      items.length ≤ maxResults := by
  intro fuel
  induction fuel with
  | zero =>
    intro page startIndex acc had429 pageCount items flag pages hacc h
    simp [fetchRecentCvesLoop] at h
  | succ fuel ih =>
    intro page startIndex acc had429 pageCount items flag pages hacc h
    rw [fetchRecentCvesLoop] at h
    rcases hpl : fetchPageLoop (oracle page) 0 with ⟨r1, r2⟩
    rw [hpl] at h
    rcases r1 with e | body
    · simp at h
    · simp only at h
      have hacc' : (acc ++ body.vulnerabilities.take (maxResults - acc.length)).length ≤
          maxResults := by
        simp [List.length_take]
        omega
      split_ifs at h with hcond
      · exact ih _ _ _ _ _ _ _ _ hacc' h
      · simp only [Except.ok.injEq, Prod.mk.injEq] at h
        obtain ⟨h1, h2, h3⟩ := h
        subst h1
        exact hacc'

/-- C8: the bulk paginator never collects more than `maxResults` items (for
any oracle, target and fuel), and in the concrete scenario of
`maxResults = 10` with the API reporting `totalResults = 25` in a single
2000-sized page, it returns exactly the first 10 items after exactly 1 page
request. -/
theorem fetchRecentCves_pagination :
    (∀ (α : Type) (oracle : ℕ → ℕ → FetchOutcome (BulkBody α)) (maxResults fuel : ℕ)
      (items : List α) (flag : Bool) (pages : ℕ),
      fetchRecentCves oracle maxResults fuel = .ok (items, flag, pages) →
      items.length ≤ maxResults) ∧
    fetchRecentCves (fun _ _ => FetchOutcome.response 200 (⟨25, List.range 25⟩ : BulkBody ℕ))
        10 2 = .ok (List.range 10, false, 1) := by
  constructor
  · intro α oracle maxResults fuel items flag pages h
    exact fetchRecentCvesLoop_length_le oracle maxResults fuel 0 0 [] false 0 items flag pages
      (by simp) h
  · have hpage :
        fetchPageLoop ((fun _ _ => FetchOutcome.response 200 (⟨25, List.range 25⟩ : BulkBody ℕ)) 0)
          0 = (.ok ⟨25, List.range 25⟩, false) := by
      rw [fetchPageLoop]
      simp [okStatus]
    show fetchRecentCvesLoop _ 10 (1 + 1) 0 0 [] false 0 = _
    rw [fetchRecentCvesLoop, hpage]
    simp [RESULTS_PER_PAGE]
    decide

/-- Witness for the implication half of `fetchRecentCves_pagination`,
instantiated with the concrete scenario run established by its second
half. -/
theorem fetchRecentCves_pagination_witness : (List.range 10).length ≤ 10 :=
  fetchRecentCves_pagination.1 ℕ
    (fun _ _ => FetchOutcome.response 200 (⟨25, List.range 25⟩ : BulkBody ℕ)) 10 2
    (List.range 10) false 1 fetchRecentCves_pagination.2

/-! ## C1: the sliding-window limiter -/

theorem pruneOld_decomp (ws : ℕ) (l : List ℕ) :
    ∃ p, l = p ++ pruneOld ws l ∧ ∀ x ∈ p, x < ws := by
  induction l with
  | nil => exact ⟨[], rfl, by simp⟩
  | cons t ts ih =>
    by_cases h : t < ws
    · obtain ⟨p, hp, hall⟩ := ih
      refine ⟨t :: p, ?_, ?_⟩
      · simp only [pruneOld, if_pos h]
        simpa using hp
      · intro x hx
        rcases List.mem_cons.mp hx with hx | hx
        · exact hx ▸ h
        · exact hall x hx
    · exact ⟨[], by simp [pruneOld, h], by simp⟩

theorem pruneOld_length_le (ws : ℕ) (l : List ℕ) : (pruneOld ws l).length ≤ l.length := by
  obtain ⟨p, hp, -⟩ := pruneOld_decomp ws l
  have hlen := congrArg List.length hp
  simp only [List.length_append] at hlen
  omega

theorem pruneOld_cons_of_lt (ws t0 : ℕ) (rest : List ℕ) (h : t0 < ws) :
    pruneOld ws (t0 :: rest) = pruneOld ws rest := by
  simp [pruneOld, h]

theorem waitForRateLimit_eq_nowait (limit : ℕ) (l : List ℕ) (now : ℕ)
    (hc : ¬ limit ≤ (pruneOld (now - RATE_LIMIT_WINDOW_MS) l).length) :
    waitForRateLimit limit l now = (pruneOld (now - RATE_LIMIT_WINDOW_MS) l ++ [now], now) := by
  simp [waitForRateLimit, hc]

theorem waitForRateLimit_eq_wait (limit : ℕ) (l : List ℕ) (now t0 : ℕ) (rest : List ℕ)
    (hpr : pruneOld (now - RATE_LIMIT_WINDOW_MS) l = t0 :: rest)
    (hc : limit ≤ (t0 :: rest).length) :
    ∃ newNow, now ≤ newNow ∧ t0 + RATE_LIMIT_WINDOW_MS + 100 ≤ newNow ∧
      waitForRateLimit limit l now =
        (pruneOld (newNow - RATE_LIMIT_WINDOW_MS) (t0 :: rest) ++ [newNow], newNow) := by
  refine ⟨if 0 < t0 + RATE_LIMIT_WINDOW_MS + 100 - now then
      now + (t0 + RATE_LIMIT_WINDOW_MS + 100 - now) else now, ?_, ?_, ?_⟩
  · split_ifs <;> omega
  · split_ifs with h <;> omega
  · simp [waitForRateLimit, hpr, hc]
    intro hlt
    exact absurd hc (by simp; omega)

theorem windowCount_append (t : ℕ) (a b : List ℕ) :
    windowCount t (a ++ b) = windowCount t a + windowCount t b := by
  simp [windowCount, List.countP_append]

theorem windowCount_le_length (t : ℕ) (l : List ℕ) : windowCount t l ≤ l.length := by
  unfold windowCount
  exact List.countP_le_length _

theorem windowCount_eq_zero_of_old (t d : ℕ) (hp : List ℕ)
    (hold : ∀ x ∈ hp, x + RATE_LIMIT_WINDOW_MS < d) (hdt : d ≤ t) :
    windowCount t hp = 0 := by
  refine List.countP_eq_zero.mpr ?_
  intro x hx
  have := hold x hx
  simp only [inWindow, Bool.and_eq_true, decide_eq_true_eq, not_and]
  omega

theorem inv_push (limit : ℕ) (hp lnew : List ℕ) (clock d : ℕ)
    (hold : ∀ x ∈ hp, x + RATE_LIMIT_WINDOW_MS < d)
    (hsorted : List.Pairwise (· ≤ ·) (hp ++ lnew))
    (hle : ∀ x ∈ hp ++ lnew, x ≤ clock) (hcd : clock ≤ d)
    (hlen : lnew.length < limit)
    (hwin : ∀ t, windowCount t (hp ++ lnew) ≤ limit) :
    LimiterInv limit ⟨lnew ++ [d], (hp ++ lnew) ++ [d], d⟩ := by
  constructor
  · exact ⟨hp, by simp, hold⟩
  · refine List.pairwise_append.mpr ⟨hsorted, by simp, ?_⟩
    intro x hx y hy
    rcases List.mem_singleton.mp hy
    exact le_trans (hle x hx) hcd
  · intro x hx
    rcases List.mem_append.mp hx with hx | hx
    · exact le_trans (hle x hx) hcd
    · rcases List.mem_singleton.mp hx
      exact le_rfl
  · simpa using hlen
  · intro t
    rw [windowCount_append]
    by_cases hd : inWindow t d = true
    · have hdt : d ≤ t := by
        simp only [inWindow, Bool.and_eq_true, decide_eq_true_eq] at hd
        exact hd.2
      have h0 : windowCount t hp = 0 :=
        windowCount_eq_zero_of_old t d hp hold hdt
      have hsingle : windowCount t [d] ≤ 1 := windowCount_le_length t [d]
      have hsplit : windowCount t (hp ++ lnew) = windowCount t lnew := by
        rw [windowCount_append, h0, Nat.zero_add]
      have := windowCount_le_length t lnew
      have := hwin t
      rw [hsplit] at this ⊢
      omega
    · have : windowCount t [d] = 0 := by
        simp [windowCount, List.countP_cons, hd]
      rw [this]
      simpa using hwin t

theorem limiterStep_inv (limit : ℕ) (hlim : 0 < limit) (st : LimiterRun) (delta : ℕ)
    (h : LimiterInv limit st) : LimiterInv limit (limiterStep limit st delta) := by
  obtain ⟨hp0, hdec0, hold0⟩ := h.decomp
  have hclock : st.clock ≤ st.clock + delta := Nat.le_add_right _ _
  obtain ⟨p1, hdec1, hold1⟩ :=
    pruneOld_decomp (st.clock + delta - RATE_LIMIT_WINDOW_MS) st.timestamps
  by_cases hc :
      limit ≤ (pruneOld (st.clock + delta - RATE_LIMIT_WINDOW_MS) st.timestamps).length
  · -- at the limit: wait, prune again, push
    cases hl1 : pruneOld (st.clock + delta - RATE_LIMIT_WINDOW_MS) st.timestamps with
    | nil =>
      rw [hl1] at hc
      simp at hc
      omega
    | cons t0 rest =>
      rw [hl1] at hc hdec1
      have hlen1 : (t0 :: rest).length ≤ limit := by
        have h1 := pruneOld_length_le (st.clock + delta - RATE_LIMIT_WINDOW_MS) st.timestamps
        rw [hl1] at h1
        have h2 := h.card
        omega
      obtain ⟨newNow, hnn1, hnn2, heq⟩ :=
        waitForRateLimit_eq_wait limit st.timestamps (st.clock + delta) t0 rest hl1 hc
      have ht0 : t0 < newNow - RATE_LIMIT_WINDOW_MS := by omega
      have hpr2 := pruneOld_cons_of_lt (newNow - RATE_LIMIT_WINDOW_MS) t0 rest ht0
      obtain ⟨p2, hdec2, hold2⟩ := pruneOld_decomp (newNow - RATE_LIMIT_WINDOW_MS) rest
      have hhist : st.history =
          (hp0 ++ (p1 ++ t0 :: p2)) ++ pruneOld (newNow - RATE_LIMIT_WINDOW_MS) rest := by
        conv_lhs => rw [hdec0, hdec1, hdec2]
        simp
      have hstep : limiterStep limit st delta =
          ⟨pruneOld (newNow - RATE_LIMIT_WINDOW_MS) rest ++ [newNow],
           ((hp0 ++ (p1 ++ t0 :: p2)) ++ pruneOld (newNow - RATE_LIMIT_WINDOW_MS) rest) ++
             [newNow], newNow⟩ := by
        simp only [limiterStep, heq, hpr2]
        rw [← hhist]
      rw [hstep]
      refine inv_push limit _ _ st.clock newNow ?_ ?_ ?_ (le_trans hclock hnn1) ?_ ?_
      · intro x hx
        rcases List.mem_append.mp hx with hx | hx
        · have := hold0 x hx
          omega
        · rcases List.mem_append.mp hx with hx | hx
          · have := hold1 x hx
            omega
          · rcases List.mem_cons.mp hx with hx | hx
            · subst hx
              omega
            · have := hold2 x hx
              omega
      · rw [← hhist]
        exact h.sorted
      · rw [← hhist]
        exact h.le_clock
      · have h1 := pruneOld_length_le (newNow - RATE_LIMIT_WINDOW_MS) rest
        simp at hlen1 ⊢
        omega
      · intro t
        rw [← hhist]
        exact h.window t
  · -- below the limit: push immediately
    have heq := waitForRateLimit_eq_nowait limit st.timestamps (st.clock + delta) hc
    have hhist : st.history =
        (hp0 ++ p1) ++ pruneOld (st.clock + delta - RATE_LIMIT_WINDOW_MS) st.timestamps := by
      conv_lhs => rw [hdec0, hdec1]
      simp
    have hstep : limiterStep limit st delta =
        ⟨pruneOld (st.clock + delta - RATE_LIMIT_WINDOW_MS) st.timestamps ++ [st.clock + delta],
         ((hp0 ++ p1) ++ pruneOld (st.clock + delta - RATE_LIMIT_WINDOW_MS) st.timestamps) ++
           [st.clock + delta], st.clock + delta⟩ := by
      simp only [limiterStep, heq]
      rw [← hhist]
    rw [hstep]
    refine inv_push limit _ _ st.clock (st.clock + delta) ?_ ?_ ?_ hclock (by omega) ?_
    · intro x hx
      rcases List.mem_append.mp hx with hx | hx
      · have := hold0 x hx
        omega
      · have := hold1 x hx
        omega
    · rw [← hhist]
      exact h.sorted
    · rw [← hhist]
      exact h.le_clock
    · intro t
      rw [← hhist]
      exact h.window t

theorem runAcquires_inv (limit : ℕ) (hlim : 0 < limit) (deltas : List ℕ) :
    LimiterInv limit (runAcquires limit deltas) := by
  have hstep : ∀ (ds : List ℕ) (st : LimiterRun), LimiterInv limit st →
      LimiterInv limit (ds.foldl (limiterStep limit) st) := by
    intro ds
    induction ds with
    | nil => intro st h; exact h
    | cons d ds ih =>
      intro st h
      exact ih _ (limiterStep_inv limit hlim st d h)
  refine hstep deltas ⟨[], [], 0⟩ ?_
  constructor
  · exact ⟨[], rfl, by simp⟩
  · exact List.Pairwise.nil
  · simp
  · simp
  · intro t
    simp [windowCount]

/-- C1: for every sequence of acquire operations against the sliding-window
limiter, starting from the empty timestamp sequence, the full history of
recorded dispatch times contains at most `RATE_LIMIT_REQUESTS` entries (50
with an API key, 5 without) inside any trailing `RATE_LIMIT_WINDOW_MS`-long
window, the recorded sequence is sorted non-decreasingly, and the live
timestamp list never holds more entries than the limit permits. -/
theorem waitForRateLimit_sliding_window (hasApiKey : Bool) (deltas : List ℕ) :
    List.Pairwise (· ≤ ·) (runAcquires (RATE_LIMIT_REQUESTS hasApiKey) deltas).history ∧
    (∀ t, windowCount t (runAcquires (RATE_LIMIT_REQUESTS hasApiKey) deltas).history ≤
      RATE_LIMIT_REQUESTS hasApiKey) ∧
    (runAcquires (RATE_LIMIT_REQUESTS hasApiKey) deltas).timestamps.length ≤
      RATE_LIMIT_REQUESTS hasApiKey := by
  have hlim : 0 < RATE_LIMIT_REQUESTS hasApiKey := by
    cases hasApiKey <;> decide
  have h := runAcquires_inv (RATE_LIMIT_REQUESTS hasApiKey) hlim deltas
  exact ⟨h.sorted, h.window, h.card⟩
